import Mathlib

/-!
Verification of the go-metro flow-tracking and RTT-estimation engine.

The definitions below are a shallow embedding of the per-TCP-segment
processing in src/ddsniff.go (`handlePacket`, `GetTimestamps`,
`readUint32`) and of the reporting tick in src/reporter.go (`Report`).
Machine integers are modelled as `Nat`/`Int` with explicit wrap-around
(`% 2^w`, `Int.emod`) exactly where the Go code converts or overflows.
Go maps with zero-default reads (`flow.Timed`, `flow.Seen`) are modelled
as total functions returning the zero value off-domain.
-/

set_option linter.unusedVariables false
set_option linter.unnecessarySeqFocus false

namespace GoMetro

/-- Composite correlation key `TCPKey` (timestamp value, sequence number).
Both fields hold uint32 values. -/
structure TCPKey where
  TS : Nat
  Seq : Nat
deriving DecidableEq

/-- Per-flow record `TCPAccounting`.  The record type itself lives in a
repository file that is not under src/; the fields here are exactly the
ones src/ddsniff.go and src/reporter.go read and write:
`Timed` (pending sends: map `TCPKey → int64` capture nanoseconds, a Go map
whose missing entries read as `0`), `Seen` (ack numbers already used for a
sample, missing entries read as `false`), the running statistics
`SRTT`, `Jitter`, `Last`, `Min`, `Max` (uint64 nanoseconds), `Sampled`
(sample count), and `Done` (graceful close observed).
`lastArm` is modelled from the spec: §3 gives the record one resettable
self-expiry timer (`Alive` / `SetExpiration` in the missing flow file);
`lastArm` records the duration (nanoseconds) the timer was last armed
with. -/
structure TCPAccounting where
  Timed : TCPKey → Int
  Seen : Nat → Bool
  SRTT : Int
  Jitter : Int
  Last : Int
  Min : Int
  Max : Int
  Sampled : Nat
  Done : Bool
  lastArm : Int

/-- The sniffer configuration fields of `DatadogSniffer` that
`handlePacket` reads: `ExpTTL`, `IdleTTL` (Go `int`, seconds), `Soften`,
and the host-IP membership map `hostIPs` (`map[string]bool`, missing
entries read as `false`). -/
structure SnifferCfg where
  ExpTTL : Int
  IdleTTL : Int
  Soften : Bool
  hostIPs : String → Bool

/-- One decoded IPv4/TCP segment as `handlePacket` sees it after
`DecodeLayers`: addresses (their `String()` form), ports, the TCP flags
and numbers it reads, the IPv4 total length / IHL and TCP data offset
(uint16 / uint8 / uint8 values), the parsed timestamp option
`(TSval, TSecr)` when present, and the capture timestamp
`ci.Timestamp.UnixNano()`. -/
structure Packet where
  srcIP : String
  dstIP : String
  srcPort : Nat
  dstPort : Nat
  ACK : Bool
  FIN : Bool
  seq : Nat
  ack : Nat
  ip4Length : Nat
  ihl : Nat
  dataOffset : Nat
  tsOpt : Option (Nat × Nat)
  time : Int

/-- Definition `idle := time.Duration(d.IdleTTL * int(time.Second))` (ddsniff.go:166). -/
def idleDur (cfg : SnifferCfg) : Int := cfg.IdleTTL * 1000000000

/-- Definition `expTTL := time.Duration(d.ExpTTL * int(time.Second))` (ddsniff.go:185). -/
def expDur (cfg : SnifferCfg) : Int := cfg.ExpTTL * 1000000000

/-- The `(ts, tsecr)` pair `handlePacket` obtains from `GetTimestamps`
(ddsniff.go:200, 210): the parsed option when present, and `(0, 0)` when
the option is absent, because both call sites discard the error and
`GetTimestamps` returns zeros alongside it. -/
def tsPair (p : Packet) : Nat × Nat := p.tsOpt.getD (0, 0)

/-- Definition `tcp_payload_sz := uint32(ip4.Length) - uint32((ip4.IHL+tcp.DataOffset)*4)`
(ddsniff.go:196).  `IHL` and `DataOffset` are uint8, so the sum and the
product wrap modulo 2^8 before widening; the subtraction wraps modulo
2^32. -/
def payloadSz (len ihl doff : Nat) : Nat :=
  (len + 2 ^ 32 - ((ihl + doff) * 4) % 2 ^ 8) % 2 ^ 32

/-- Modelled from the spec: `CalcSRTT` lives in the repository's flow
record file, which is not under src/.  §4.3 gives the update as
`smoothedRTT += (rtt − smoothedRTT) / gainFactor`; the `soften` flag only
selects an evaluation order for the division (§4.3, §9), which this model
does not distinguish. -/
def CalcSRTT (srtt rtt : Int) (soften : Bool) : Int :=
  srtt + (rtt - srtt) / 8

/-- Modelled from the spec: `CalcJitter` is not under src/; §4.3 gives the
update as the same smoothing applied to the absolute deviation
`|rtt − smoothedRTT|`. -/
def CalcJitter (jitter srtt rtt : Int) (soften : Bool) : Int :=
  jitter + (|rtt - srtt| - jitter) / 8

/-- The statistics block of lines 218-223 of ddsniff.go: `CalcSRTT`,
`CalcJitter` (against the already-updated SRTT), `MaxRTT`, `MinRTT`
(modelled from the spec as `max`/`min`, their bodies are not under src/),
`Last = rtt`, `Sampled++`. -/
def recordSample (soften : Bool) (rtt : Int) (f : TCPAccounting) : TCPAccounting :=
  let srtt := CalcSRTT f.SRTT rtt soften
  { f with
    SRTT := srtt
    Jitter := CalcJitter f.Jitter srtt rtt soften
    Max := max f.Max rtt
    Min := min f.Min rtt
    Last := rtt
    Sampled := f.Sampled + 1 }

/-- Assignment `flow.Seen[tcp.Ack] = true` (ddsniff.go:225). -/
def markSeen (a : Nat) (f : TCPAccounting) : TCPAccounting :=
  { f with Seen := fun x => if x = a then true else f.Seen x }

/-- Lines 178-194 of ddsniff.go for a flow already in the table: the
unconditional `flow.Alive.Reset(idle)` (line 181) followed by the
graceful-close transition (lines 184-194), which overrides the armed
duration with `expTTL` and sets `Done` when `ExpTTL > 0`, the segment
carries ACK and FIN, and `Done` was not yet set.  The net effect on the
single timer is: the guarded branch leaves it armed with `expTTL`,
every other packet leaves it armed with `idle`. -/
def armTimers (cfg : SnifferCfg) (p : Packet) (f : TCPAccounting) : TCPAccounting :=
  if 0 < cfg.ExpTTL ∧ p.ACK = true ∧ p.FIN = true ∧ f.Done = false then
    { f with Done := true, lastArm := expDur cfg }
  else
    { f with lastArm := idleDur cfg }

/-- Lines 196-227 of ddsniff.go, the correlation step.  Outbound
(`ourIP && tcp_payload_sz > 0`): seed `flow.Timed[(ts, tcp.Seq)]` with the
capture time.  Inbound (`!ourIP`): look up `(tsecr, tcp.Ack)`; on a hit
with the ack not yet seen and the ACK flag set, compute
`rtt := uint64(now - flow.Timed[t])` (wrapping modulo 2^64) and record the
sample; in either hit case mark the ack seen. -/
def correlate (cfg : SnifferCfg) (p : Packet) (f : TCPAccounting) : TCPAccounting :=
  if cfg.hostIPs p.srcIP = true ∧ 0 < payloadSz p.ip4Length p.ihl p.dataOffset then
    { f with Timed := fun k => if k = ⟨(tsPair p).1, p.seq⟩ then p.time else f.Timed k }
  else if cfg.hostIPs p.srcIP = false then
    if f.Timed ⟨(tsPair p).2, p.ack⟩ ≠ 0 then
      if f.Seen p.ack = false ∧ p.ACK = true then
        markSeen p.ack
          (recordSample cfg.Soften ((p.time - f.Timed ⟨(tsPair p).2, p.ack⟩).emod (2 ^ 64)) f)
      else
        markSeen p.ack f
    else f
  else f

/-- The full per-segment mutation of one flow record performed by
`handlePacket` (ddsniff.go:178-228): timer/lifecycle handling followed by
timestamp correlation, all under the record's lock. -/
def handleSegment (cfg : SnifferCfg) (p : Packet) (f : TCPAccounting) : TCPAccounting :=
  correlate cfg p (armTimers cfg p f)

/-- A sequence of segments of one flow, delivered to the dispatcher in
order. -/
def runSegments (cfg : SnifferCfg) (f : TCPAccounting) : List Packet → TCPAccounting
  | [] => f
  | p :: ps => runSegments cfg (handleSegment cfg p f) ps

/-- The statistics listed by the spec: sample count, smoothed RTT, jitter,
last RTT, min RTT, max RTT. -/
def statsOf (f : TCPAccounting) : Nat × Int × Int × Int × Int × Int :=
  (f.Sampled, f.SRTT, f.Jitter, f.Last, f.Min, f.Max)

/-- A fresh record: every Go map read misses, every counter is zero.
This is the state of a just-created `TCPAccounting` as far as the fields
touched by `handlePacket` are concerned. -/
def freshFlow : TCPAccounting :=
  { Timed := fun _ => 0
    Seen := fun _ => false
    SRTT := 0
    Jitter := 0
    Last := 0
    Min := 0
    Max := 0
    Sampled := 0
    Done := false
    lastArm := 0 }

/-! ### Projection lemmas for the step components -/

theorem armTimers_Seen (cfg : SnifferCfg) (p : Packet) (f : TCPAccounting) :
    (armTimers cfg p f).Seen = f.Seen := by
  unfold armTimers; split <;> rfl

theorem armTimers_Timed (cfg : SnifferCfg) (p : Packet) (f : TCPAccounting) :
    (armTimers cfg p f).Timed = f.Timed := by
  unfold armTimers; split <;> rfl

theorem armTimers_statsOf (cfg : SnifferCfg) (p : Packet) (f : TCPAccounting) :
    statsOf (armTimers cfg p f) = statsOf f := by
  unfold armTimers; split <;> rfl

theorem armTimers_Sampled (cfg : SnifferCfg) (p : Packet) (f : TCPAccounting) :
    (armTimers cfg p f).Sampled = f.Sampled := by
  unfold armTimers; split <;> rfl

theorem correlate_Done (cfg : SnifferCfg) (p : Packet) (f : TCPAccounting) :
    (correlate cfg p f).Done = f.Done := by
  unfold correlate markSeen recordSample; split_ifs <;> rfl

theorem correlate_lastArm (cfg : SnifferCfg) (p : Packet) (f : TCPAccounting) :
    (correlate cfg p f).lastArm = f.lastArm := by
  unfold correlate markSeen recordSample; split_ifs <;> rfl

theorem statsOf_markSeen (a : Nat) (f : TCPAccounting) :
    statsOf (markSeen a f) = statsOf f := rfl

theorem Seen_markSeen (a : Nat) (f : TCPAccounting) (x : Nat) :
    (markSeen a f).Seen x = if x = a then true else f.Seen x := rfl

theorem Seen_recordSample (s : Bool) (r : Int) (f : TCPAccounting) :
    (recordSample s r f).Seen = f.Seen := rfl

theorem Timed_recordSample (s : Bool) (r : Int) (f : TCPAccounting) :
    (recordSample s r f).Timed = f.Timed := rfl

theorem Timed_markSeen (a : Nat) (f : TCPAccounting) :
    (markSeen a f).Timed = f.Timed := rfl

/-! ### The `Seen` set suppresses resampling -/

/-- An ack number already marked seen blocks every statistics update:
the guarded sample branch (ddsniff.go:215) is the only place the
statistics change, and it requires `flow.Seen[tcp.Ack] == false`. -/
theorem seen_blocks (cfg : SnifferCfg) (q : Packet) (f : TCPAccounting)
    (h : f.Seen q.ack = true) : statsOf (handleSegment cfg q f) = statsOf f := by
  unfold handleSegment
  rw [← armTimers_statsOf cfg q f]
  have hs : (armTimers cfg q f).Seen q.ack = true := by rw [armTimers_Seen]; exact h
  unfold correlate
  split_ifs with h1 h2 h3 h4
  · rfl
  · simp [hs] at h4
  · rw [statsOf_markSeen]
  · rfl
  · rfl

/-- Marking acks seen is monotone: no step of `handleSegment` ever clears
a `Seen` entry. -/
theorem seen_mono (cfg : SnifferCfg) (p : Packet) (f : TCPAccounting) (A : Nat)
    (h : f.Seen A = true) : (handleSegment cfg p f).Seen A = true := by
  unfold handleSegment
  have hs : (armTimers cfg p f).Seen A = true := by rw [armTimers_Seen]; exact h
  unfold correlate
  split_ifs with h1 h2 h3 h4
  · exact hs
  · rw [Seen_markSeen, Seen_recordSample]
    split <;> simp [hs]
  · rw [Seen_markSeen]
    split <;> simp [hs]
  · exact hs
  · exact hs

theorem runSegments_seen_mono (cfg : SnifferCfg) (ps : List Packet)
    (f : TCPAccounting) (A : Nat) (h : f.Seen A = true) :
    (runSegments cfg f ps).Seen A = true := by
  induction ps generalizing f with
  | nil => exact h
  | cons p ps ih => exact ih (handleSegment cfg p f) (seen_mono cfg p f A h)

/-- A step that changed the sample count marked its own ack number seen:
the only branch incrementing `Sampled` (ddsniff.go:223) is followed by
`flow.Seen[tcp.Ack] = true` (ddsniff.go:225). -/
theorem sampled_change_marks_seen (cfg : SnifferCfg) (p : Packet) (f : TCPAccounting)
    (h : (handleSegment cfg p f).Sampled ≠ f.Sampled) :
    (handleSegment cfg p f).Seen p.ack = true := by
  unfold handleSegment at *
  rw [← armTimers_Sampled cfg p f] at h
  unfold correlate at *
  split_ifs at * with h1 h2 h3 h4
  · exact absurd rfl h
  · rw [Seen_markSeen]; simp
  · rw [Seen_markSeen]; simp
  · exact absurd rfl h
  · exact absurd rfl h

/-! ### Concrete fixtures -/

/-- A concrete configuration: 60 s graceful-close TTL, 300 s idle TTL,
one monitored host IP. -/
def cfg0 : SnifferCfg :=
  { ExpTTL := 60
    IdleTTL := 300
    Soften := false
    hostIPs := fun s => decide (s = ("10.0.0.1")) }

/-- Outbound data segment from the monitored host: 20 payload bytes,
timestamp option TSval=100, Seq=1000, captured at t=1000 ns. -/
def pOut : Packet :=
  { srcIP := ("10.0.0.1")
    dstIP := ("93.184.216.34")
    srcPort := 443
    dstPort := 51000
    ACK := true
    FIN := false
    seq := 1000
    ack := 7000
    ip4Length := 60
    ihl := 5
    dataOffset := 5
    tsOpt := some (100, 50)
    time := 1000 }

/-- Inbound acknowledgment from the peer echoing TSecr=100 for Ack=1000,
captured at t=5001000 ns. -/
def pAck : Packet :=
  { srcIP := ("93.184.216.34")
    dstIP := ("10.0.0.1")
    srcPort := 51000
    dstPort := 443
    ACK := true
    FIN := false
    seq := 7000
    ack := 1000
    ip4Length := 40
    ihl := 5
    dataOffset := 5
    tsOpt := some (70, 100)
    time := 5001000 }

/-- The same acknowledgment retransmitted 1 ms later. -/
def pAckDup : Packet :=
  { pAck with time := 6001000 }

/-! ### Claim C1 -/

/-- Claim C1: for every packet sequence delivered to the dispatcher for
one flow, at most one RTT sample is recorded per unique acknowledgment
number.  Once a segment `p` with acknowledgment number `A` has contributed
a sample (changed the sample count), any later inbound segment `q` with
the same acknowledgment number leaves `Sampled`, `SRTT`, `Jitter`,
`Last`, `Min` and `Max` unchanged, however often the ACK is
retransmitted. -/
theorem claim_C1_one_sample_per_ack (cfg : SnifferCfg) (f0 : TCPAccounting) (A : Nat)
    (xs zs : List Packet) (p q : Packet)
    (hpA : p.ack = A) (hqA : q.ack = A)
    (hqin : cfg.hostIPs q.srcIP = false)
    (hcontrib :
      (handleSegment cfg p (runSegments cfg f0 xs)).Sampled ≠ (runSegments cfg f0 xs).Sampled) :
    statsOf
        (handleSegment cfg q (runSegments cfg (handleSegment cfg p (runSegments cfg f0 xs)) zs)) =
      statsOf (runSegments cfg (handleSegment cfg p (runSegments cfg f0 xs)) zs) := by
  have h1 : (handleSegment cfg p (runSegments cfg f0 xs)).Seen A = true := by
    rw [← hpA]
    exact sampled_change_marks_seen cfg p (runSegments cfg f0 xs) hcontrib
  have h2 : (runSegments cfg (handleSegment cfg p (runSegments cfg f0 xs)) zs).Seen A = true :=
    runSegments_seen_mono cfg zs _ A h1
  rw [← hqA] at h2
  exact seen_blocks cfg q _ h2

/-- Claim C1 witness: the spec's duplicate-ACK scenario.  The outbound
segment (TSval=100, Seq=1000), its first acknowledgment (TSecr=100,
Ack=1000) contributing the single sample, and the retransmitted
acknowledgment leaving every statistic unchanged. -/
theorem claim_C1_one_sample_per_ack_witness :
    statsOf
        (handleSegment cfg0 pAckDup
          (runSegments cfg0 (handleSegment cfg0 pAck (runSegments cfg0 freshFlow [pOut])) [])) =
      statsOf (runSegments cfg0 (handleSegment cfg0 pAck (runSegments cfg0 freshFlow [pOut])) []) :=
  claim_C1_one_sample_per_ack cfg0 freshFlow 1000 [pOut] [] pAck pAckDup
    rfl rfl (by decide) (by decide)

/-! ### Claim C2 -/

/-- A flow holding one pending send: `Timed[(100, 1000)] = 5000000` ns. -/
def flowC2 : TCPAccounting :=
  { freshFlow with Timed := fun k => if k = ⟨100, 1000⟩ then 5000000 else 0 }

/-- The matching acknowledgment captured 1 ms *before* the recorded send
time (a capture-ordering anomaly): TSecr=100, Ack=1000, t=4000000 ns. -/
def pAckEarly : Packet :=
  { pAck with time := 4000000 }

/-- Claim C2: the code does not discard non-positive RTT samples.  On an
acknowledgment whose capture time (4000000 ns) precedes the recorded send
time (5000000 ns), `rtt := uint64(now - flow.Timed[t])` (ddsniff.go:217)
wraps modulo 2^64 and the sample is fed into the estimator: the sample
count becomes 1 and the last RTT becomes 2^64 - 1000000 ns, instead of
the statistics staying unchanged. -/
theorem claim_C2_negative_rtt_not_discarded :
    (handleSegment cfg0 pAckEarly flowC2).Sampled = 1 ∧
      (handleSegment cfg0 pAckEarly flowC2).Last = 2 ^ 64 - 1000000 := by decide

/-! ### Claim C3 -/

/-- Outbound data segment carrying no TCP timestamp option. -/
def pOutNoTS : Packet :=
  { pOut with tsOpt := none }

/-- Inbound acknowledgment for it, also carrying no timestamp option. -/
def pAckNoTS : Packet :=
  { pAck with tsOpt := none, time := 5000000 }

/-- Claim C3: a flow in which no segment ever carries the timestamp
option can still record samples.  Both `GetTimestamps` call sites discard
the error (ddsniff.go:200, 210), so an absent option yields `ts = 0` and
`tsecr = 0`; the outbound segment seeds `Timed[(0, 1000)]` and the
acknowledgment with `Ack = 1000` matches it, so `Sampled` becomes 1
instead of remaining 0 for the flow's lifetime. -/
theorem claim_C3_no_ts_option_still_samples :
    pOutNoTS.tsOpt = none ∧ pAckNoTS.tsOpt = none ∧
      (runSegments cfg0 freshFlow [pOutNoTS, pAckNoTS]).Sampled = 1 := by decide

/-! ### Claim C4 -/

/-- Claim C4 counterexample: after the outbound segment (TSval=100,
Seq=1000, sent at t=1000 ns) is matched by its acknowledgment and
contributes the sample (`Sampled = 1`), the matched `Timed[(100, 1000)]`
entry still holds 1000 — it was not deleted as part of processing the
match, contradicting the claim that matched entries are deleted
immediately. -/
theorem claim_C4_counterexample :
    (runSegments cfg0 freshFlow [pOut, pAck]).Sampled = 1 ∧
      (runSegments cfg0 freshFlow [pOut, pAck]).Timed ⟨100, 1000⟩ = 1000 := by decide

/-- Claim C4 amended: the dispatcher never deletes `Timed` entries.
Processing an inbound segment (the only direction that can match a
pending send) leaves the whole `Timed` table unchanged — matched entries
included — so matched entries are retained, not deleted. -/
theorem claim_C4_inbound_preserves_timed (cfg : SnifferCfg) (p : Packet)
    (f : TCPAccounting) (h : cfg.hostIPs p.srcIP = false) :
    (handleSegment cfg p f).Timed = f.Timed := by
  unfold handleSegment
  rw [← armTimers_Timed cfg p f]
  unfold correlate
  split_ifs with h1 h2 h3 <;>
    simp_all [Timed_markSeen, Timed_recordSample]

/-- Claim C4 amended witness: the inbound acknowledgment that contributes
the sample leaves the `Timed` table of the flow untouched. -/
theorem claim_C4_inbound_preserves_timed_witness :
    (handleSegment cfg0 pAck (handleSegment cfg0 pOut freshFlow)).Timed =
      (handleSegment cfg0 pOut freshFlow).Timed :=
  claim_C4_inbound_preserves_timed cfg0 pAck (handleSegment cfg0 pOut freshFlow) (by decide)

/-! ### Claim C5 -/

/-- A FIN+ACK segment from the peer closing the connection. -/
def pFinAck : Packet :=
  { pAck with FIN := true, ACK := true, tsOpt := none, time := 7000000 }

/-- A trailing plain segment from the peer after the close. -/
def pTrail : Packet :=
  { pAck with ACK := false, tsOpt := none, time := 8000000 }

/-- Claim C5 counterexample: the FIN+ACK segment sets `Done` and arms the
timer with the 60 s `ExpTTL` grace duration, but the very next trailing
packet rearms it with the 300 s idle duration (`flow.Alive.Reset(idle)`,
ddsniff.go:181, runs unconditionally for every packet of an existing
flow), so the timer does not keep the `ExpTTL` deadline set at the close
transition. -/
theorem claim_C5_counterexample :
    (handleSegment cfg0 pFinAck freshFlow).Done = true ∧
      (handleSegment cfg0 pFinAck freshFlow).lastArm = expDur cfg0 ∧
      (handleSegment cfg0 pTrail (handleSegment cfg0 pFinAck freshFlow)).lastArm = idleDur cfg0 ∧
      idleDur cfg0 ≠ expDur cfg0 := by decide

/-- Claim C5 amended: after a FIN+ACK has been observed (`Done = true`),
every further packet for the flow rearms the expiry timer with the idle
timeout — only the repeated `ExpTTL` rearm is suppressed — so trailing
traffic extends the record's lifetime beyond the `ExpTTL` grace deadline
instead of being bounded by it. -/
theorem claim_C5_closing_rearms_idle (cfg : SnifferCfg) (p : Packet)
    (f : TCPAccounting) (h : f.Done = true) :
    (handleSegment cfg p f).lastArm = idleDur cfg := by
  unfold handleSegment
  rw [correlate_lastArm]
  unfold armTimers
  split_ifs with h1
  · rw [h] at h1; exact absurd h1.2.2.2 (by decide)
  · rfl

/-- Claim C5 amended witness: the trailing packet after the observed
close rearms the timer with the idle duration. -/
theorem claim_C5_closing_rearms_idle_witness :
    (handleSegment cfg0 pTrail (handleSegment cfg0 pFinAck freshFlow)).lastArm = idleDur cfg0 :=
  claim_C5_closing_rearms_idle cfg0 pTrail (handleSegment cfg0 pFinAck freshFlow) (by decide)

/-! ### Claim C6 -/

/-- Claim C6: the `Done` flag of a record becomes true after a step
exactly when it already was true or the segment carries both FIN and ACK
while `ExpTTL > 0` (so it transitions false→true at most once, on the
first such segment); on that transition the timer is armed with the
`ExpTTL` grace duration; with `ExpTTL ≤ 0` the transition and the
graceful rearm are skipped entirely; and once `Done` holds, later
segments (FIN+ACK included) arm the timer with the idle duration, never
the grace duration again. -/
theorem claim_C6_done_transition (cfg : SnifferCfg) (p : Packet) (f : TCPAccounting) :
    ((handleSegment cfg p f).Done = true ↔
        (f.Done = true ∨ (0 < cfg.ExpTTL ∧ p.ACK = true ∧ p.FIN = true))) ∧
      (f.Done = false → 0 < cfg.ExpTTL → p.ACK = true → p.FIN = true →
        (handleSegment cfg p f).lastArm = expDur cfg) ∧
      (cfg.ExpTTL ≤ 0 →
        (handleSegment cfg p f).Done = f.Done ∧
          (handleSegment cfg p f).lastArm = idleDur cfg) ∧
      (f.Done = true → (handleSegment cfg p f).lastArm = idleDur cfg) := by
  unfold handleSegment
  rw [correlate_Done, correlate_lastArm]
  unfold armTimers
  split_ifs with h1 <;>
    refine ⟨?_, ?_, ?_, ?_⟩ <;>
      simp_all <;>
        first
          | omega
          | (cases hD : f.Done <;> simp_all)

/-- Claim C6 witness: the first FIN+ACK segment on a fresh record flips
`Done` and arms the timer with the grace duration. -/
theorem claim_C6_done_transition_witness :
    (handleSegment cfg0 pFinAck freshFlow).lastArm = expDur cfg0 :=
  (claim_C6_done_transition cfg0 pFinAck freshFlow).2.1 rfl (by decide) rfl rfl

/-! ### Claim C8 -/

/-- Model of `net.JoinHostPort` for an IPv4 host string: `host ++ ":" ++ port`. -/
def joinHostPort (host : String) (port : Nat) : String :=
  host ++ ":" ++ toString port

/-- The canonical flow key of ddsniff.go:152-176: the monitored side's
endpoint is placed first when the packet's source IP is in `hostIPs`,
otherwise the destination endpoint is placed first; the two halves are
joined with "-". -/
def flowKey (hostIPs : String → Bool) (srcIP dstIP : String) (srcPort dstPort : Nat) : String :=
  if hostIPs srcIP = true then
    joinHostPort srcIP srcPort ++ "-" ++ joinHostPort dstIP dstPort
  else
    joinHostPort dstIP dstPort ++ "-" ++ joinHostPort srcIP srcPort

/-- Claim C8: for a connection between a monitored host `h` (in the
host-IP set) and a peer `p` (not in it), both directions of the
connection map to the same key, and that key lists the monitored
endpoint first. -/
theorem claim_C8_canonical_key (hostIPs : String → Bool) (h p : String)
    (hp pp : Nat) (hh : hostIPs h = true) (hpeer : hostIPs p = false) :
    flowKey hostIPs h p hp pp = joinHostPort h hp ++ "-" ++ joinHostPort p pp ∧
      flowKey hostIPs p h pp hp = joinHostPort h hp ++ "-" ++ joinHostPort p pp := by
  unfold flowKey
  rw [hh, hpeer]
  exact ⟨rfl, rfl⟩

/-- Claim C8 witness: both directions of the connection
10.0.0.1:443 ↔ 93.184.216.34:51000 produce the key oriented with the
monitored host first. -/
theorem claim_C8_canonical_key_witness :
    flowKey cfg0.hostIPs ("10.0.0.1") ("93.184.216.34") 443 51000 =
        joinHostPort ("10.0.0.1") 443 ++ "-" ++ joinHostPort ("93.184.216.34") 51000 ∧
      flowKey cfg0.hostIPs ("93.184.216.34") ("10.0.0.1") 51000 443 =
        joinHostPort ("10.0.0.1") 443 ++ "-" ++ joinHostPort ("93.184.216.34") 51000 :=
  claim_C8_canonical_key cfg0.hostIPs ("10.0.0.1") ("93.184.216.34") 443 51000
    (by decide) (by decide)

/-! ### Claim C10 -/

/-- Claim C10: the payload-length test wraps modulo 2^32.  For any
segment whose combined header length `(IHL + DataOffset) * 4` (the IHL
and data-offset fields are 4-bit, so at most 15 each) exceeds the IPv4
total length field, `tcp_payload_sz` comes out as the large positive
value `2^32 - (headerBytes - length)`; consequently a segment from the
monitored host with such headers passes the `tcp_payload_sz > 0` test
and seeds a `Timed` (pendingSends) entry at `(TSval, Seq)` with its
capture time, despite carrying no payload. -/
theorem claim_C10_payload_wraparound (cfg : SnifferCfg) (p : Packet) (f : TCPAccounting)
    (hour : cfg.hostIPs p.srcIP = true)
    (hihl : p.ihl ≤ 15) (hdoff : p.dataOffset ≤ 15)
    (hlen : p.ip4Length < (p.ihl + p.dataOffset) * 4) :
    payloadSz p.ip4Length p.ihl p.dataOffset =
        2 ^ 32 - ((p.ihl + p.dataOffset) * 4 - p.ip4Length) ∧
      0 < payloadSz p.ip4Length p.ihl p.dataOffset ∧
      (handleSegment cfg p f).Timed ⟨(tsPair p).1, p.seq⟩ = p.time := by
  have hhdr : ((p.ihl + p.dataOffset) * 4) % 2 ^ 8 = (p.ihl + p.dataOffset) * 4 :=
    Nat.mod_eq_of_lt (by omega)
  have hsz : payloadSz p.ip4Length p.ihl p.dataOffset =
      2 ^ 32 - ((p.ihl + p.dataOffset) * 4 - p.ip4Length) := by
    unfold payloadSz
    rw [hhdr]
    rw [Nat.mod_eq_of_lt (by omega)]
    omega
  refine ⟨hsz, by rw [hsz]; omega, ?_⟩
  unfold handleSegment correlate
  rw [armTimers_Timed]
  split_ifs with h1
  · simp
  all_goals exact absurd ⟨hour, by rw [hsz]; omega⟩ h1

/-- Claim C10 witness: total length 40 with IHL 5 and data offset 10
(header bytes 60 > 40) gives `tcp_payload_sz = 2^32 - 20 > 0`, and the
outbound segment seeds `Timed[(100, 1000)]` with its capture time. -/
theorem claim_C10_payload_wraparound_witness :
    payloadSz 40 5 10 = 2 ^ 32 - 20 ∧ 0 < payloadSz 40 5 10 ∧
      (handleSegment cfg0
          { pOut with ip4Length := 40, ihl := 5, dataOffset := 10 }
          freshFlow).Timed ⟨100, 1000⟩ = 1000 :=
  claim_C10_payload_wraparound cfg0
    { pOut with ip4Length := 40, ihl := 5, dataOffset := 10 } freshFlow
    (by decide) (by decide) (by decide) (by decide)

/-! ### Claim C7: byte-level model of `GetTimestamps` -/

/-- Model of `readUint32` (ddsniff.go:94-98): big-endian read of four bytes via
`binary.Read`; on a buffer shorter than four bytes `binary.Read` fails,
the error is discarded and `ret` keeps its zero value. -/
def readUint32 : List Nat → Nat
  | b0 :: b1 :: b2 :: b3 :: _ => ((b0 * 256 + b1) * 256 + b2) * 256 + b3
  | _ => 0

/-- A decoded TCP option as the capture/decode collaborator delivers it:
the option kind and the option's data bytes (the bytes after the
kind/length pair; the decoder accepts any declared length ≥ 2 that fits
the options region, so this list can be shorter than 8 bytes). -/
structure TCPOption where
  OptionType : Nat
  OptionData : List Nat
deriving DecidableEq

/-- Outcome of running `GetTimestamps` (ddsniff.go:100-109) on an option
list.  `panics` models a Go runtime panic: on the first option of type 8,
the code evaluates `OptionData[:4]` (requires capacity ≥ 4) and
`OptionData[4:]` (requires length ≥ 4); when `OptionData` holds fewer
than four bytes one of the two slice expressions is out of range, so the
call panics instead of returning. -/
inductive TSResult where
  | ok (ts tsecr : Nat)
  | err
  | panics
deriving DecidableEq

/-- Model of `GetTimestamps` (ddsniff.go:100-109): scan for the first option of
type 8, return its TSval/TSecr words, or an error when no such option
exists — except that a type-8 option with fewer than four data bytes
makes the slice expressions panic. -/
def GetTimestamps : List TCPOption → TSResult
  | [] => .err
  | o :: rest =>
    if o.OptionType = 8 then
      if o.OptionData.length < 4 then .panics
      else .ok (readUint32 (o.OptionData.take 4)) (readUint32 (o.OptionData.drop 4))
    else GetTimestamps rest

/-- Claim C7: `handlePacket` does not survive every malformed packet.  A
TCP segment whose options bytes declare a timestamp option of length 4
(so the decoder hands over a type-8 option with two data bytes) drives
`GetTimestamps` into an out-of-range slice — a runtime panic that
crashes the sniffing loop — while a well-formed 10-byte timestamp option
and an absent option are handled normally. -/
theorem claim_C7_malformed_option_panics :
    GetTimestamps [⟨8, [0, 0]⟩] = TSResult.panics ∧
      GetTimestamps [⟨1, []⟩, ⟨8, [0, 0, 0, 100, 0, 0, 0, 50]⟩] = TSResult.ok 100 50 ∧
      GetTimestamps [⟨1, []⟩] = TSResult.err := by decide

/-! ### Claim C9: lock/IO event trace of the reporting tick -/

/-- The lock and I/O events of `Report` (reporter.go:136-183):
`r.flows.Lock()` / `r.flows.Unlock()` on the table's structural lock,
`flow.Lock()` / `flow.Unlock()` on a record, a statsd metric submission
(`r.submit`), and a record flush. -/
inductive RepEv where
  | tableLock
  | tableUnlock
  | recLock
  | recUnlock
  | submit
  | flushRec
deriving DecidableEq

/-- The body of the per-flow iteration (reporter.go:138-181): lock the
record, submit the three RTT metrics when the flow has samples,
optionally flush, unlock the record. -/
def flowEvents (sampled doFlush : Bool) : List RepEv :=
  [RepEv.recLock] ++
    (if sampled then [RepEv.submit, RepEv.submit, RepEv.submit] else []) ++
    (if doFlush then [RepEv.flushRec] else []) ++
    [RepEv.recUnlock]

/-- The iteration bodies for a list of flows, in table order.  Each flow
is described by (has samples to report, needs flushing). -/
def flowsEvents : List (Bool × Bool) → List RepEv
  | [] => []
  | fl :: rest => flowEvents fl.1 fl.2 ++ flowsEvents rest

/-- One tick of the reporting loop (reporter.go:136-183):
`r.flows.Lock()`, the whole per-flow iteration, `r.flows.Unlock()`. -/
def reportTick (flows : List (Bool × Bool)) : List RepEv :=
  RepEv.tableLock :: (flowsEvents flows ++ [RepEv.tableUnlock])

/-- Whether the table's structural lock is held after executing a prefix
of the trace. -/
def tableHeld (tr : List RepEv) : Bool :=
  tr.foldl
    (fun h e =>
      match e with
      | RepEv.tableLock => true
      | RepEv.tableUnlock => false
      | _ => h)
    false

/-- Trace checker for the amended locking discipline, tracking whether
the table lock (`t`) and a record lock (`r`) are held.  It demands that
every metric submission and every record-lock acquisition happen while
the table lock is held, and that the table lock is never acquired while
a record lock is held (so the order is always table first, record
second). -/
def lockCheck : Bool → Bool → List RepEv → Bool
  | _, _, [] => true
  | t, r, e :: tr =>
    match e with
    | RepEv.tableLock => !r && lockCheck true r tr
    | RepEv.tableUnlock => lockCheck false r tr
    | RepEv.recLock => t && lockCheck t true tr
    | RepEv.recUnlock => lockCheck t false tr
    | RepEv.submit => t && lockCheck t r tr
    | RepEv.flushRec => lockCheck t r tr

/-- Claim C9 counterexample: in the tick for a single flow with samples,
the record lock is acquired (index 1) and the three metric submissions
are performed (indices 2-4) while the table's structural lock is still
held — it is released only at the end of the whole iteration — so the
table lock is not released before per-record work and metrics I/O. -/
theorem claim_C9_counterexample :
    reportTick [(true, false)] =
        [RepEv.tableLock, RepEv.recLock, RepEv.submit, RepEv.submit, RepEv.submit,
          RepEv.recUnlock, RepEv.tableUnlock] ∧
      (reportTick [(true, false)])[1]? = some RepEv.recLock ∧
      tableHeld (List.take 1 (reportTick [(true, false)])) = true ∧
      (reportTick [(true, false)])[2]? = some RepEv.submit ∧
      tableHeld (List.take 2 (reportTick [(true, false)])) = true := by decide

theorem lockCheck_flowEvents (s fl : Bool) (rest : List RepEv) :
    lockCheck true false (flowEvents s fl ++ rest) = lockCheck true false rest := by
  cases s <;> cases fl <;> simp [flowEvents, lockCheck]

theorem lockCheck_flowsEvents (flows : List (Bool × Bool)) :
    lockCheck true false (flowsEvents flows ++ [RepEv.tableUnlock]) = true := by
  induction flows with
  | nil => rfl
  | cons fl rest ih =>
    rw [flowsEvents, List.append_assoc, lockCheck_flowEvents]
    exact ih

/-- Claim C9 amended: the reporting tick holds the table's structural
lock for the entire iteration — every record-lock acquisition and every
metric submission happens while it is held — and the lock order is
uniformly table lock first, record lock second (the table lock is never
acquired while a record lock is held), which is what rules out the
inversion deadlock. -/
theorem claim_C9_table_lock_discipline (flows : List (Bool × Bool)) :
    lockCheck false false (reportTick flows) = true := by
  rw [reportTick]
  show lockCheck true false (flowsEvents flows ++ [RepEv.tableUnlock]) = true
  exact lockCheck_flowsEvents flows

end GoMetro
